import Mathlib

/-!
Shallow embedding of the FabMo-Engine bootstrap orchestrator
(`src/routes/dashboard.js`, the engine startup module) and of the host-UI
message relay (`src/dashboard/static/js/dashboard.js`).

JavaScript strings are modelled by Lean `String` except in the not-found
routing handler, where URLs are modelled as `List Char` so that splitting
and joining on the separator character mirror `String.prototype.split` and
`Array.prototype.join`.  Collaborator calls (file system, configuration
store, hardware driver, cache clearing) are modelled as explicit parameters
or as entries in an effect trace.
-/

namespace FabMo

/-- JavaScript `a || b` on strings: the empty string is falsy, any other
string is truthy. -/
def jsOr (a b : String) : String :=
  if a = "" then b else a

/-- JavaScript `String.prototype.trim`: remove leading and trailing
whitespace. -/
def jsTrim (s : String) : String :=
  String.mk
    (((s.data.dropWhile Char.isWhitespace).reverse.dropWhile
      Char.isWhitespace).reverse)

/-- The engine version object produced by `Engine.prototype.getVersion`:
a build hash and a semantic version number (either may be empty). -/
structure VersionInfo where
  hash : String
  number : String
deriving Repr, DecidableEq

/-- The current build identity used by the `clear_approot` stage:
`(this.version.hash || this.version.number || "").trim()`. -/
def currentIdentity (v : VersionInfo) : String :=
  jsTrim (jsOr v.hash (jsOr v.number ""))

/-- The pseudo-random integer computed in debug mode:
`Math.floor(Math.random() * (99999 - 10000)) + 10000`, where `q` stands for
the value returned by `Math.random()`. -/
def randomInt (q : ℚ) : ℕ :=
  (⌊q * (99999 - 10000)⌋).toNat + 10000

/-- Observable outcome of the `clear_approot` stage: the value of the
persisted `version` configuration entry after the stage (`none` when the
entry was never written and was absent before), the number of calls to the
cache-clear collaborator `config.clearAppRoot`, and the number of calls to
`config.engine.set` on the `version` key. -/
structure ClearApprootResult where
  persisted : Option String
  clears : ℕ
  sets : ℕ
deriving Repr, DecidableEq

/-- The `clear_approot` startup stage (engine module, `function clear_approot`).
Inputs: the debug flag (`'debug' in argv`), the value `q` drawn by
`Math.random()`, the previously persisted `version` configuration entry, and
the engine version object.  In debug mode a random cache-busting token is
persisted (the same value is written twice in the source) and the approot is
cleared; otherwise the trimmed persisted token is compared with the trimmed
current build identity, and on mismatch the approot is cleared and the
current identity persisted, while on match nothing happens. -/
def clear_approot (debug : Bool) (q : ℚ) (prior : Option String)
    (v : VersionInfo) : ClearApprootResult :=
  if debug then
    let random := randomInt q
    { persisted := some (toString random), clears := 1, sets := 2 }
  else
    let last_time_version := jsTrim (prior.getD "")
    let this_time_version := currentIdentity v
    if last_time_version ≠ this_time_version then
      { persisted := some this_time_version, clears := 1, sets := 1 }
    else
      { persisted := prior, clears := 0, sets := 0 }

/-- The part of the engine state relevant to time synchronisation: the
`time_synced` flag, initialised to `false` by the `Engine` constructor. -/
structure TimeState where
  time_synced : Bool
deriving Repr, DecidableEq

/-- The fresh engine produced by the `Engine` constructor has
`time_synced = false`. -/
def TimeState.init : TimeState :=
  { time_synced := false }

/-- `Engine.prototype.setTime`: if the `time_synced` flag is not yet set,
set it and issue the system time-set shell command; otherwise do nothing.
Returns the new state together with the number of time-set commands issued
by this call. -/
def setTime (s : TimeState) : TimeState × ℕ :=
  if s.time_synced then
    (s, 0)
  else
    ({ time_synced := true }, 1)

/-- Outcome of one startup stage as seen by `async.series`: the stage either
completes successfully with the (possibly mutated) shared engine state, or
fails with an error. -/
inductive StageResult (σ : Type) where
  | ok (s : σ)
  | fail (e : String)
deriving Repr, DecidableEq

/-- A named startup stage from the `async.series` list in
`Engine.prototype.start`: a name and a body acting on the shared engine
state. -/
structure Stage (σ : Type) where
  name : String
  run : σ → StageResult σ

/-- The value delivered to the terminal callback of `Engine.prototype.start`
(`function(err, results)` at the end of `async.series`): on any failure the
callback receives the error (`callback(err)`), on full success it receives
the final engine state (`callback(null, this)`). -/
inductive Terminal (σ : Type) where
  | success (s : σ)
  | failure (e : String)
deriving Repr, DecidableEq

/-- The `async.series` sequencer of `Engine.prototype.start`: run the
stages left to right, threading the shared state; on the first stage
failure stop and deliver the error to the terminal callback; if every stage
succeeds deliver the final state.  Also returns the list of names of the
stages that were actually started, in order. -/
def runSeries {σ : Type} : List (Stage σ) → σ → List String × Terminal σ
  | [], s => ([], Terminal.success s)
  | st :: rest, s =>
    match st.run s with
    | StageResult.ok s2 =>
      let r := runSeries rest s2
      (st.name :: r.1, r.2)
    | StageResult.fail e => ([st.name], Terminal.failure e)

/-- Run a prefix of stages assuming all of them succeed: returns the
resulting state, or `none` if some stage in the prefix fails. -/
def runAllOk {σ : Type} : List (Stage σ) → σ → Option σ
  | [], s => some s
  | st :: rest, s =>
    match st.run s with
    | StageResult.ok s2 => runAllOk rest s2
    | StageResult.fail _ => none

/-- One hexadecimal digit character, as produced by Node's
`Buffer.prototype.toString` with encoding `hex` (lowercase digits). -/
def hexDigitChar (n : ℕ) : Char :=
  if n = 0 then '0'
  else if n = 1 then '1'
  else if n = 2 then '2'
  else if n = 3 then '3'
  else if n = 4 then '4'
  else if n = 5 then '5'
  else if n = 6 then '6'
  else if n = 7 then '7'
  else if n = 8 then '8'
  else if n = 9 then '9'
  else if n = 10 then 'a'
  else if n = 11 then 'b'
  else if n = 12 then 'c'
  else if n = 13 then 'd'
  else if n = 14 then 'e'
  else 'f'

/-- Hex encoding of one byte: two hexadecimal digit characters. -/
def byteToHex (b : Fin 256) : List Char :=
  [hexDigitChar (b.val / 16), hexDigitChar (b.val % 16)]

/-- Node `crypto.randomBytes(n).toString(\x27hex\x27)`: hex-encode a byte
buffer into a string. -/
def hexEncode (bs : List (Fin 256)) : String :=
  String.mk (bs.flatMap byteToHex)

/-- Observable outcome of the `generate_auth_key` stage: the in-memory
`auth_secret` adopted by the engine, the number of writes of the secret
file, and the error value passed to the stage completion callback. -/
structure AuthKeyResult where
  auth_secret : String
  writes : ℕ
  cbErr : Option String
deriving Repr, DecidableEq

/-- The `generate_auth_key` startup stage.  Inputs: the outcome of
`fs.readFile` on the secret file (`Except` error or content), the byte
buffer drawn by `crypto.randomBytes(256)`, and the error outcome of
`fs.writeFile` (ignored by the stage, which always continues without an
error).  If the read succeeds and the content is truthy with length exactly
512, the content is adopted verbatim and nothing is written; otherwise a
fresh hex-encoded secret is generated, written once, and adopted.  The
`fs.writeFile` continuation is `function(err, data) { callback(); }`: it
ignores the write error and invokes the stage callback with no error. -/
def generate_auth_key (readResult : Except String String)
    (bytes : List (Fin 256)) (_writeErr : Option String) : AuthKeyResult :=
  match readResult with
  | Except.ok data =>
    if data ≠ "" ∧ data.length = 512 then
      { auth_secret := data, writes := 0, cbErr := none }
    else
      { auth_secret := hexEncode bytes, writes := 1, cbErr := none }
  | Except.error _ =>
    { auth_secret := hexEncode bytes, writes := 1, cbErr := none }

/-- A URL as handled by the not-found handler: a JavaScript string modelled
as its list of characters, so that `split` and `join` on the separator are
list operations. -/
abbrev Url := List Char

/-- The response produced by the `NotFound` handler of the assembled
server: the handler always calls `res.redirect`, so the only constructor is
a redirect to a target URL. -/
inductive NotFoundResponse where
  | redirect (target : Url)
deriving Repr, DecidableEq

/-- The `NotFound` event handler installed by the `start_server` stage.
`current_hash` is the persisted `version` configuration entry at request
time and `url` the requested path.  The path is split on the slash
character; if the element at index 1 differs from the current hash (JS
strict inequality, also true when the element is absent), that element is
replaced by the current hash via `splice(1, 1, current_hash)` and the
joined path is the redirect target; otherwise the redirect target is the
root path. -/
def notFoundHandler (current_hash : Url) (url : Url) : NotFoundResponse :=
  let url_arr := url.splitOn '/'
  if url_arr.get? 1 ≠ some current_hash then
    let spliced := url_arr.take 1 ++ [current_hash] ++ url_arr.drop 2
    NotFoundResponse.redirect (List.intercalate ['/'] spliced)
  else
    NotFoundResponse.redirect ['/']

/-- Observable trace of one connectivity-gated startup stage: the sequence
of error values passed to the stage completion callback (one entry per
invocation of the callback, in the order the invocations appear in the
source), and the number of calls made on the hardware driver handle
(including handing the live driver handle to a collaborator). -/
structure StageTrace where
  callbackErrs : List (Option String)
  driverCalls : ℕ
deriving Repr, DecidableEq

/-- The `set_units` stage: when the machine is connected, call
`this.machine.driver.setUnits(units, callback)` (one driver call, the
driver passes `setUnitsErr` to the callback); otherwise call
`callback(null)` directly. -/
def set_units (connected : Bool) (setUnitsErr : Option String) : StageTrace :=
  if connected then
    { callbackErrs := [setUnitsErr], driverCalls := 1 }
  else
    { callbackErrs := [none], driverCalls := 0 }

/-- The `load_driver_config` stage: when the machine is connected,
`config.configureDriver(machine.machine.driver, cb)` is called with the
live driver handle and the continuation passes `callback(null)`.  When
disconnected, `config.configureDriver(null, cb)` is called with a null
driver handle, its continuation invokes `callback(null)`, and then the
stage body also invokes `callback(null)` directly, so the completion
callback is invoked twice.  `configErr` is the error reported by the
`configureDriver` collaborator; both branches discard it. -/
def load_driver_config (connected : Bool) (_configErr : Option String) : StageTrace :=
  if connected then
    { callbackErrs := [none], driverCalls := 1 }
  else
    { callbackErrs := [none, none], driverCalls := 0 }

/-- The `get_g2_version` stage: when connected, one driver call
`this.machine.driver.get([fb, fbs, fbc], cb)` whose continuation passes
`callback(null)` whether or not the driver reported an error; when
disconnected, `callback(null)` directly with no driver call. -/
def get_g2_version (connected : Bool) (_getErr : Option String) : StageTrace :=
  if connected then
    { callbackErrs := [none], driverCalls := 1 }
  else
    { callbackErrs := [none], driverCalls := 0 }

/-- The `load_opensbp_commands` stage: when disconnected, return
`callback(null)` immediately with no hardware call; when connected, call
`this.machine.sbp_runtime.loadCommands(callback)` (one call on the machine
handle, passing through the collaborator error). -/
def load_opensbp_commands (connected : Bool) (loadErr : Option String) : StageTrace :=
  if connected then
    { callbackErrs := [loadErr], driverCalls := 1 }
  else
    { callbackErrs := [none], driverCalls := 0 }

/-- A message received by the dashboard relay from an application frame
(`e.data`).  Each JavaScript field may be absent (`undefined`), modelled by
`none`. -/
structure RelayMessage where
  showDRO : Option Bool
  job : Option String
  getMachine : Option Bool
deriving Repr, DecidableEq

/-- The active machine handle held by the dashboard (`this.machine`): the
fields the relay touches are `ip`, `port` and the `add_job` call, whose
outcome is modelled by `addJobErr` (the error its callback reports, `none`
on success). -/
structure MachineHandle where
  ip : String
  port : ℕ
  addJobErr : Option String
deriving Repr, DecidableEq

/-- The reply payload built by the `getMachine` branch:
`{ip: this.machine.ip, port: this.machine.port}` and nothing else. -/
structure MachinePayload where
  ip : String
  port : ℕ
deriving Repr, DecidableEq

/-- Observable effects of the dashboard relay and menu helpers: DOM class
changes on the main element, menu-state calls on the UI object, layout
resize, job submission, launching the job manager, console logging of a job
error, a reply posted to the originating frame (`e.source.postMessage`),
and the TypeError thrown when a null machine handle is dereferenced
(rethrown by the handler's catch block). -/
inductive Effect where
  | addClass (c : String)
  | removeClass (c : String)
  | setMenuOpen
  | setMenuClosed
  | resize
  | addJob (j : String)
  | launchJobManager
  | logError (e : String)
  | postToSource (p : MachinePayload)
  | throwTypeError
deriving Repr, DecidableEq

/-- `Dashboard.prototype.openRightMenu`: always add the
`offcanvas-overlap-left` class to the main element; call
`this.ui.setMenuOpen()` only when a machine handle is present; always
resize. -/
def openRightMenu (machine : Option MachineHandle) : List Effect :=
  [Effect.addClass "offcanvas-overlap-left"]
    ++ (if machine.isSome then [Effect.setMenuOpen] else [])
    ++ [Effect.resize]

/-- `Dashboard.prototype.closeRightMenu`: always remove the
`offcanvas-overlap-left` class from the main element; call
`this.ui.setMenuClosed()` only when a machine handle is present; always
resize. -/
def closeRightMenu (machine : Option MachineHandle) : List Effect :=
  [Effect.removeClass "offcanvas-overlap-left"]
    ++ (if machine.isSome then [Effect.setMenuClosed] else [])
    ++ [Effect.resize]

/-- The message handler registered by `Dashboard.prototype.registerHandlers`.
Dispatch is an if/else chain on field presence: `showDRO === true` opens the
right menu, `showDRO === false` closes it, a defined `job` is submitted via
`this.machine.add_job` (logging on failure, launching the job manager on
success), and `getMachine === true` posts `{ip, port}` back to the
originating frame.  Branches that dereference `this.machine` throw when the
handle is null, and the catch block rethrows. -/
def handleMessage (machine : Option MachineHandle) (m : RelayMessage) :
    List Effect :=
  if m.showDRO = some true then
    openRightMenu machine
  else if m.showDRO = some false then
    closeRightMenu machine
  else if m.job.isSome then
    match machine, m.job with
    | some mach, some j =>
      match mach.addJobErr with
      | some e => [Effect.addJob j, Effect.logError e]
      | none => [Effect.addJob j, Effect.launchJobManager]
    | none, _ => [Effect.throwTypeError]
    | _, none => []
  else if m.getMachine = some true then
    match machine with
    | some mach => [Effect.postToSource { ip := mach.ip, port := mach.port }]
    | none => [Effect.throwTypeError]
  else
    []

/-! ## Theorems -/

lemma randomInt_mem (q : ℚ) (h0 : 0 ≤ q) (h1 : q < 1) :
    10000 ≤ randomInt q ∧ randomInt q < 99999 := by
  unfold randomInt
  have hnn : (0 : ℤ) ≤ ⌊q * (99999 - 10000)⌋ := by
    apply Int.floor_nonneg.mpr
    have : (0 : ℚ) ≤ (99999 - 10000 : ℚ) := by norm_num
    exact mul_nonneg h0 this
  have hlt : ⌊q * (99999 - 10000)⌋ < 89999 := by
    apply Int.floor_lt.mpr
    push_cast
    nlinarith
  omega

/-- C1: the VersionGate stage `clear_approot`.  In debug mode the persisted
version token afterwards is the decimal string of a pseudo-random integer
in the interval from 10000 inclusive to 99999 exclusive and the cache-clear
collaborator is invoked, regardless of the prior token.  In non-debug mode
with the trimmed persisted token different from the trimmed current build
identity (hash preferred, else semantic number), the cache-clear
collaborator is invoked exactly once and the persisted token afterwards
equals the current build identity.  In non-debug mode with equal tokens,
nothing is cleared and nothing is persisted. -/
theorem C1_version_gate (debug : Bool) (q : ℚ) (prior : Option String)
    (v : VersionInfo) (hq0 : 0 ≤ q) (hq1 : q < 1) :
    (debug = true →
      (∃ n : ℕ, 10000 ≤ n ∧ n < 99999 ∧
        (clear_approot debug q prior v).persisted = some (toString n)) ∧
      (clear_approot debug q prior v).clears = 1) ∧
    (debug = false → jsTrim (prior.getD "") ≠ currentIdentity v →
      (clear_approot debug q prior v).clears = 1 ∧
      (clear_approot debug q prior v).persisted = some (currentIdentity v)) ∧
    (debug = false → jsTrim (prior.getD "") = currentIdentity v →
      (clear_approot debug q prior v).clears = 0 ∧
      (clear_approot debug q prior v).sets = 0 ∧
      (clear_approot debug q prior v).persisted = prior) := by
  refine ⟨?_, ?_, ?_⟩
  · intro hd
    subst hd
    obtain ⟨hlo, hhi⟩ := randomInt_mem q hq0 hq1
    exact ⟨⟨randomInt q, hlo, hhi, rfl⟩, rfl⟩
  · intro hd hne
    subst hd
    simp [clear_approot, hne]
  · intro hd heq
    subst hd
    simp [clear_approot, heq]

/-- Closed instance of `C1_version_gate` at a concrete random draw, prior
token, and version object. -/
theorem C1_version_gate_witness :
    (clear_approot true (1 / 2) (some "oldtok") { hash := "abc123", number := "1.2.3" }).clears = 1 ∧
    (clear_approot false (1 / 2) (some "oldtok") { hash := "abc123", number := "1.2.3" }).persisted = some "abc123" := by
  have h := C1_version_gate true (1 / 2) (some "oldtok")
    { hash := "abc123", number := "1.2.3" } (by norm_num) (by norm_num)
  have h2 := C1_version_gate false (1 / 2) (some "oldtok")
    { hash := "abc123", number := "1.2.3" } (by norm_num) (by norm_num)
  refine ⟨(h.1 rfl).2, ?_⟩
  have h3 := (h2.2.1 rfl (by decide)).2
  rw [h3]
  decide

/-- C7: the `time_synced` flag of a fresh engine is false; the first
`setTime` call sets it and issues exactly one time-set command; once the
flag is true every further `setTime` call is a no-op, so the flag
transitions from false to true at most once. -/
theorem C7_time_sync :
    TimeState.init.time_synced = false ∧
    setTime TimeState.init = ({ time_synced := true }, 1) ∧
    (∀ s : TimeState, (setTime s).1.time_synced = true) ∧
    (∀ s : TimeState, setTime (setTime s).1 = ((setTime s).1, 0)) ∧
    setTime { time_synced := true } = ({ time_synced := true }, 0) := by
  refine ⟨rfl, rfl, ?_, ?_, rfl⟩
  · rintro ⟨b⟩
    cases b <;> rfl
  · rintro ⟨b⟩
    cases b <;> rfl

/-- C2 counterexample: the terminal callback of the sequencer does not
receive the originating stage's name — no function of the delivered
terminal value can recover it, because two stage lists that differ only in
the failing stage's name deliver identical terminal values. -/
theorem C2_sequencer_counterexample :
    ¬ ∃ f : Terminal Unit → String,
      ∀ (n e : String),
        f (runSeries [{ name := n, run := fun _ => StageResult.fail e }] ()).2 = n := by
  rintro ⟨f, hf⟩
  have h1 := hf "stage_a" "boom"
  have h2 := hf "stage_b" "boom"
  simp only [runSeries] at h1 h2
  rw [h1] at h2
  exact absurd h2 (by decide)

/-- C2 (amended): for every run of the stage list, if some stage fails then
the sequencer aborts immediately, runs no later stage, and invokes the
single terminal callback with the error alone; if every stage succeeds, the
terminal callback is invoked with the final engine state and no error. -/
theorem C2_sequencer_contract {σ : Type} :
    (∀ (l1 l2 : List (Stage σ)) (st : Stage σ) (s s1 : σ) (e : String),
      runAllOk l1 s = some s1 → st.run s1 = StageResult.fail e →
      runSeries (l1 ++ st :: l2) s =
        (l1.map Stage.name ++ [st.name], Terminal.failure e)) ∧
    (∀ (l : List (Stage σ)) (s s1 : σ),
      runAllOk l s = some s1 →
      runSeries l s = (l.map Stage.name, Terminal.success s1)) := by
  constructor
  · intro l1
    induction l1 with
    | nil =>
      intro l2 st s s1 e hall hfail
      simp only [runAllOk, Option.some.injEq] at hall
      subst hall
      simp [runSeries, hfail]
    | cons a t ih =>
      intro l2 st s s1 e hall hfail
      simp only [runAllOk] at hall
      cases ha : a.run s with
      | ok s2 =>
        rw [ha] at hall
        have := ih l2 st s2 s1 e hall hfail
        simp [runSeries, ha, this]
      | fail e2 =>
        rw [ha] at hall
        cases hall
  · intro l
    induction l with
    | nil =>
      intro s s1 hall
      simp only [runAllOk, Option.some.injEq] at hall
      subst hall
      rfl
    | cons a t ih =>
      intro s s1 hall
      simp only [runAllOk] at hall
      cases ha : a.run s with
      | ok s2 =>
        rw [ha] at hall
        have := ih s2 s1 hall
        simp [runSeries, ha, this]
      | fail e2 =>
        rw [ha] at hall
        cases hall

/-- Closed instance of `C2_sequencer_contract` on a concrete three-stage
list with a failing middle stage, and on a concrete all-success list. -/
theorem C2_sequencer_contract_witness :
    runSeries
      [{ name := "setup_application", run := fun (s : ℕ) => StageResult.ok (s + 1) },
       { name := "load_engine_config", run := fun _ => StageResult.fail "disk error" },
       { name := "check_engine_config", run := fun s => StageResult.ok s }] 0 =
      (["setup_application", "load_engine_config"], Terminal.failure "disk error") ∧
    runSeries
      [{ name := "setup_application", run := fun (s : ℕ) => StageResult.ok (s + 1) }] 0 =
      (["setup_application"], Terminal.success 1) := by
  constructor
  · exact C2_sequencer_contract.1
      [{ name := "setup_application", run := fun s => StageResult.ok (s + 1) }]
      [{ name := "check_engine_config", run := fun s => StageResult.ok s }]
      { name := "load_engine_config", run := fun _ => StageResult.fail "disk error" }
      0 1 "disk error" rfl rfl
  · exact C2_sequencer_contract.2
      [{ name := "setup_application", run := fun s => StageResult.ok (s + 1) }]
      0 1 rfl

/-- A hexadecimal digit character in lowercase Node hex encoding. -/
def isHexChar (c : Char) : Bool :=
  (48 ≤ c.toNat && c.toNat ≤ 57) || (97 ≤ c.toNat && c.toNat ≤ 102)

lemma hexDigitChar_isHexChar : ∀ n < 16, isHexChar (hexDigitChar n) = true := by
  decide

lemma hexEncode_length (bs : List (Fin 256)) :
    (hexEncode bs).length = 2 * bs.length := by
  unfold hexEncode
  induction bs with
  | nil => rfl
  | cons b t ih =>
    simp only [List.flatMap_cons, String.length] at ih ⊢
    simp only [List.length_append, byteToHex, List.length_cons, List.length_nil, ih]
    omega

lemma hexEncode_all_hex (bs : List (Fin 256)) :
    ∀ c ∈ (hexEncode bs).data, isHexChar c = true := by
  unfold hexEncode
  intro c hc
  simp only [String.mk, List.mem_flatMap] at hc
  obtain ⟨b, _, hcb⟩ := hc
  have hdiv : b.val / 16 < 16 := by
    have := b.isLt
    omega
  have hmod : b.val % 16 < 16 := Nat.mod_lt _ (by norm_num)
  simp only [byteToHex, List.mem_cons, List.mem_singleton, List.not_mem_nil] at hcb
  rcases hcb with h | h | h
  · rw [h]
    exact hexDigitChar_isHexChar _ hdiv
  · rw [h]
    exact hexDigitChar_isHexChar _ hmod
  · cases h

/-- C3: for every boot, if the secret file reads successfully and its
content has length exactly 512, that content is adopted verbatim as the
auth secret and no disk write occurs; otherwise (read error, empty, or any
other length) a fresh secret of exactly 512 hexadecimal characters is
generated from the 256 random bytes, written back once, and adopted.  In
all cases the stage performs at most one disk write. -/
theorem C3_secret_provisioning (readResult : Except String String)
    (bytes : List (Fin 256)) (we : Option String) (hb : bytes.length = 256) :
    (∀ data, readResult = Except.ok data → data.length = 512 →
      generate_auth_key readResult bytes we =
        { auth_secret := data, writes := 0, cbErr := none }) ∧
    ((∀ data, readResult = Except.ok data → data.length ≠ 512) →
      generate_auth_key readResult bytes we =
        { auth_secret := hexEncode bytes, writes := 1, cbErr := none } ∧
      (hexEncode bytes).length = 512 ∧
      (∀ c ∈ (hexEncode bytes).data, isHexChar c = true)) ∧
    (generate_auth_key readResult bytes we).writes ≤ 1 := by
  have hlen : (hexEncode bytes).length = 512 := by
    rw [hexEncode_length, hb]
  refine ⟨?_, ?_, ?_⟩
  · intro data hr h512
    subst hr
    have hne : data ≠ "" := by
      intro he
      subst he
      simp at h512
    simp only [generate_auth_key]
    rw [if_pos ⟨hne, h512⟩]
  · intro hmal
    refine ⟨?_, hlen, hexEncode_all_hex bytes⟩
    cases readResult with
    | ok data =>
      have hm := hmal data rfl
      simp only [generate_auth_key]
      rw [if_neg (fun hcon => hm hcon.2)]
    | error e => rfl
  · cases readResult with
    | ok data =>
      simp only [generate_auth_key]
      split
      · exact Nat.zero_le 1
      · exact Nat.le_refl 1
    | error e => exact Nat.le_refl 1

/-- Closed instance of `C3_secret_provisioning`: a failed read regenerates
a 512-character secret with one write, and a well-formed 512-character
secret is adopted with no write. -/
theorem C3_secret_provisioning_witness :
    (generate_auth_key (Except.error "ENOENT")
      (List.replicate 256 (0 : Fin 256)) none).writes = 1 ∧
    (generate_auth_key (Except.error "ENOENT")
      (List.replicate 256 (0 : Fin 256)) none).auth_secret.length = 512 ∧
    generate_auth_key (Except.ok (hexEncode (List.replicate 256 (0 : Fin 256))))
      (List.replicate 256 (1 : Fin 256)) none =
      { auth_secret := hexEncode (List.replicate 256 (0 : Fin 256)),
        writes := 0, cbErr := none } := by
  have hb : (List.replicate 256 (0 : Fin 256)).length = 256 := by
    rw [List.length_replicate]
  have hb1 : (List.replicate 256 (1 : Fin 256)).length = 256 := by
    rw [List.length_replicate]
  have h := C3_secret_provisioning (Except.error "ENOENT")
    (List.replicate 256 (0 : Fin 256)) none hb
  have hreg := h.2.1 (fun d hd => by cases hd)
  have hlen : (hexEncode (List.replicate 256 (0 : Fin 256))).length = 512 := by
    rw [hexEncode_length, hb]
  have h2 := C3_secret_provisioning
    (Except.ok (hexEncode (List.replicate 256 (0 : Fin 256))))
    (List.replicate 256 (1 : Fin 256)) none hb1
  refine ⟨?_, ?_, ?_⟩
  · rw [hreg.1]
  · rw [hreg.1]
    exact hreg.2.1
  · exact h2.1 _ rfl hlen

/-- C10: the secret-provisioning stage can never fail the boot.  For every
outcome of the file-system collaborator (read error or content, and any
write-back error), the stage invokes its continuation without an error, and
in the regeneration case (exactly when a write occurred) the in-memory auth
secret is a 512-character hexadecimal string even when the write-back
failed. -/
theorem C10_secret_stage_never_fails (readResult : Except String String)
    (bytes : List (Fin 256)) (we : Option String) (hb : bytes.length = 256) :
    (generate_auth_key readResult bytes we).cbErr = none ∧
    ((generate_auth_key readResult bytes we).writes = 1 →
      (generate_auth_key readResult bytes we).auth_secret.length = 512 ∧
      (∀ c ∈ (generate_auth_key readResult bytes we).auth_secret.data,
        isHexChar c = true)) := by
  have hlen : (hexEncode bytes).length = 512 := by
    rw [hexEncode_length, hb]
  cases readResult with
  | ok data =>
    by_cases h : data ≠ "" ∧ data.length = 512
    · constructor
      · simp only [generate_auth_key]
        rw [if_pos h]
      · simp only [generate_auth_key]
        rw [if_pos h]
        intro hw
        cases hw
    · constructor
      · simp only [generate_auth_key]
        rw [if_neg h]
      · simp only [generate_auth_key]
        rw [if_neg h]
        intro hw
        exact ⟨hlen, hexEncode_all_hex bytes⟩
  | error e =>
    refine ⟨rfl, fun _ => ?_⟩
    exact ⟨hlen, hexEncode_all_hex bytes⟩

/-- Closed instance of `C10_secret_stage_never_fails` with a failing read
and a failing write: the continuation still receives no error and the
in-memory secret still has 512 characters. -/
theorem C10_secret_stage_never_fails_witness :
    (generate_auth_key (Except.error "ENOENT")
      (List.replicate 256 (0 : Fin 256)) (some "EACCES")).cbErr = none ∧
    (generate_auth_key (Except.error "ENOENT")
      (List.replicate 256 (0 : Fin 256)) (some "EACCES")).auth_secret.length = 512 := by
  have h := C10_secret_stage_never_fails (Except.error "ENOENT")
    (List.replicate 256 (0 : Fin 256)) (some "EACCES") (by rw [List.length_replicate])
  exact ⟨h.1, (h.2 rfl).1⟩

/-- C4: for every unmatched request path of the shape slash, second
segment, remaining segments (segments free of slashes), if the second path
segment differs from the currently persisted version token the response is
a redirect to the same path with that segment replaced by the current
token; if the segment already equals the current token the response is a
redirect to the root path; and for every path whatsoever the response is a
redirect, never a bare status-only 404 body. -/
theorem C4_not_found_routing (h seg : Url) (rest : List Url)
    (hs : ('/' : Char) ∉ seg) (hr : ∀ s ∈ rest, ('/' : Char) ∉ s) :
    (seg ≠ h →
      notFoundHandler h (List.intercalate ['/'] ([] :: seg :: rest)) =
        NotFoundResponse.redirect (List.intercalate ['/'] ([] :: h :: rest))) ∧
    (seg = h →
      notFoundHandler h (List.intercalate ['/'] ([] :: seg :: rest)) =
        NotFoundResponse.redirect ['/']) ∧
    (∀ url : Url, ∃ t, notFoundHandler h url = NotFoundResponse.redirect t) := by
  have hx : ∀ l ∈ ([] :: seg :: rest : List Url), ('/' : Char) ∉ l := by
    intro l hl
    simp only [List.mem_cons] at hl
    rcases hl with rfl | rfl | hl
    · exact List.not_mem_nil '/'
    · exact hs
    · exact hr l hl
  have hsplit : (List.intercalate ['/'] ([] :: seg :: rest)).splitOn '/' =
      [] :: seg :: rest :=
    List.splitOn_intercalate ([] :: seg :: rest) '/' hx (by simp)
  refine ⟨?_, ?_, ?_⟩
  · intro hne
    unfold notFoundHandler
    rw [hsplit]
    rw [if_pos (by simpa using hne)]
    rfl
  · intro heq
    unfold notFoundHandler
    rw [hsplit]
    rw [if_neg (by simpa using heq)]
  · intro url
    cases hres : notFoundHandler h url with
    | redirect t => exact ⟨t, rfl⟩

/-- Closed instance of `C4_not_found_routing`: with persisted token ABC,
the path /XYZ/app/foo redirects to /ABC/app/foo, and the path /ABC/bogus
redirects to /. -/
theorem C4_not_found_routing_witness :
    notFoundHandler ['A', 'B', 'C']
        (List.intercalate ['/'] [[], ['X', 'Y', 'Z'], ['a', 'p', 'p'], ['f', 'o', 'o']]) =
      NotFoundResponse.redirect
        (List.intercalate ['/'] [[], ['A', 'B', 'C'], ['a', 'p', 'p'], ['f', 'o', 'o']]) ∧
    notFoundHandler ['A', 'B', 'C']
        (List.intercalate ['/'] [[], ['A', 'B', 'C'], ['b', 'o', 'g', 'u', 's']]) =
      NotFoundResponse.redirect ['/'] ∧
    List.intercalate ['/'] [[], ['X', 'Y', 'Z'], ['a', 'p', 'p'], ['f', 'o', 'o']] =
      ['/', 'X', 'Y', 'Z', '/', 'a', 'p', 'p', '/', 'f', 'o', 'o'] := by
  refine ⟨?_, ?_, by decide⟩
  · exact (C4_not_found_routing ['A', 'B', 'C'] ['X', 'Y', 'Z']
      [['a', 'p', 'p'], ['f', 'o', 'o']] (by decide) (by decide)).1 (by decide)
  · exact (C4_not_found_routing ['A', 'B', 'C'] ['A', 'B', 'C']
      [['b', 'o', 'g', 'u', 's']] (by decide) (by decide)).2.1 rfl

/-- C5 (the code violates the claim): in the hardware-disconnected case the
`load_driver_config` stage invokes its completion callback twice — once
inside the `configureDriver` continuation and once directly afterwards —
not exactly once, for every outcome of the configuration collaborator. -/
theorem C5_load_driver_config_double_callback (configErr : Option String) :
    (load_driver_config false configErr).callbackErrs = [none, none] ∧
    (load_driver_config false configErr).callbackErrs.length = 2 := by
  exact ⟨rfl, rfl⟩

/-- C6: with the machine handle reporting not connected, the four
connectivity-gated stages make no call on the hardware driver, and every
value they pass to their completion callbacks is the null error, so no
error from these stages reaches the terminal callback. -/
theorem C6_stage_skip (e1 e2 e3 e4 : Option String) :
    (set_units false e1).driverCalls = 0 ∧
    (load_driver_config false e2).driverCalls = 0 ∧
    (get_g2_version false e3).driverCalls = 0 ∧
    (load_opensbp_commands false e4).driverCalls = 0 ∧
    (∀ err ∈ (set_units false e1).callbackErrs, err = none) ∧
    (∀ err ∈ (load_driver_config false e2).callbackErrs, err = none) ∧
    (∀ err ∈ (get_g2_version false e3).callbackErrs, err = none) ∧
    (∀ err ∈ (load_opensbp_commands false e4).callbackErrs, err = none) := by
  refine ⟨rfl, rfl, rfl, rfl, ?_, ?_, ?_, ?_⟩ <;>
    simp [set_units, load_driver_config, get_g2_version, load_opensbp_commands]

/-- C8: for every received message with `getMachine === true` and `showDRO`
and `job` both undefined, the relay emits exactly one effect - a reply
posted to the originating frame whose payload carries exactly the `ip` and
`port` of the active machine handle. -/
theorem C8_getMachine_reply (mach : MachineHandle) (m : RelayMessage)
    (h1 : m.showDRO = none) (h2 : m.job = none) (h3 : m.getMachine = some true) :
    handleMessage (some mach) m =
      [Effect.postToSource { ip := mach.ip, port := mach.port }] := by
  simp [handleMessage, h1, h2, h3]

/-- Closed instance of `C8_getMachine_reply` at a concrete machine handle
and message. -/
theorem C8_getMachine_reply_witness :
    handleMessage
      (some { ip := "192.168.1.10", port := 80, addJobErr := none })
      { showDRO := none, job := none, getMachine := some true } =
      [Effect.postToSource { ip := "192.168.1.10", port := 80 }] :=
  C8_getMachine_reply
    { ip := "192.168.1.10", port := 80, addJobErr := none }
    { showDRO := none, job := none, getMachine := some true } rfl rfl rfl

/-- C9 counterexample: with no active machine handle, a `showDRO === true`
message is not a no-op — the handler still adds the off-canvas overlap
class to the main element and resizes the layout. -/
theorem C9_showDRO_counterexample :
    handleMessage none { showDRO := some true, job := none, getMachine := none } =
      [Effect.addClass "offcanvas-overlap-left", Effect.resize] ∧
    handleMessage none { showDRO := some true, job := none, getMachine := none } ≠
      [] := by
  exact ⟨rfl, by decide⟩

/-- C9 (amended): a `showDRO === true` message opens the auxiliary panel
and a `showDRO === false` message closes it; when no machine handle is set
the `ui.setMenuOpen` and `ui.setMenuClosed` calls are skipped, but the
panel class change on the main element and the layout resize still
happen. -/
theorem C9_showDRO_dispatch (machine : Option MachineHandle) (m : RelayMessage) :
    (m.showDRO = some true → handleMessage machine m = openRightMenu machine) ∧
    (m.showDRO = some false → handleMessage machine m = closeRightMenu machine) ∧
    (machine = none → m.showDRO = some true →
      handleMessage machine m =
        [Effect.addClass "offcanvas-overlap-left", Effect.resize]) ∧
    (machine = none → m.showDRO = some false →
      handleMessage machine m =
        [Effect.removeClass "offcanvas-overlap-left", Effect.resize]) := by
  refine ⟨?_, ?_, ?_, ?_⟩
  · intro ht
    simp [handleMessage, ht]
  · intro hf
    simp [handleMessage, hf]
  · intro hm ht
    subst hm
    simp [handleMessage, ht, openRightMenu]
  · intro hm hf
    subst hm
    simp [handleMessage, hf, closeRightMenu]

/-- Closed instance of `C9_showDRO_dispatch`: opening with no machine
handle changes the panel class without a ui menu call, and closing with a
machine handle both removes the class and notifies the ui. -/
theorem C9_showDRO_dispatch_witness :
    handleMessage none { showDRO := some true, job := none, getMachine := none } =
      [Effect.addClass "offcanvas-overlap-left", Effect.resize] ∧
    handleMessage (some { ip := "10.0.0.5", port := 80, addJobErr := none })
      { showDRO := some false, job := none, getMachine := none } =
      [Effect.removeClass "offcanvas-overlap-left", Effect.setMenuClosed,
        Effect.resize] := by
  constructor
  · exact (C9_showDRO_dispatch none
      { showDRO := some true, job := none, getMachine := none }).2.2.1 rfl rfl
  · have h := (C9_showDRO_dispatch
      (some { ip := "10.0.0.5", port := 80, addJobErr := none })
      { showDRO := some false, job := none, getMachine := none }).2.1 rfl
    rw [h]
    rfl

end FabMo
